import Mathlib

/-!
Shallow embedding of the unit-conversion library (ConverterSystem facade,
InputValidator, category converters and the older inline dispatch for length
and weight).  JavaScript numbers are embedded as exact rationals `ℚ`; the
distinguished non-finite numbers (NaN, Infinity, -Infinity) are represented by
the single constructor `JSValue.nan`, since the validators treat all of them
alike (they are rejected by the finite-number check).  Thrown JavaScript
errors become the `Except JsError` monad.
-/

namespace L2

/-- JavaScript runtime values as far as the converter API inspects them:
strings, finite numbers, the non-finite numbers (collapsed into `nan`),
`null`, `undefined`, booleans, arrays, and plain non-callable objects
(collapsed into `obj` — the library never looks inside one; only the
inherited `Object` constructor reached through the `#conversionMethods`
prototype chain ever produces one). -/
inductive JSValue where
  | str (s : String)
  | num (q : ℚ)
  | nan
  | null
  | undef
  | bool (b : Bool)
  | arr (xs : List JSValue)
  | obj

/-- Errors thrown by the library: `TypeError(msg)`, `RangeError(msg)` (from
`Number.prototype.toFixed`) and plain `Error(msg)`. -/
inductive JsError where
  | typeError (msg : String)
  | rangeError (msg : String)
  | error (msg : String)
deriving Repr, DecidableEq

/-- Whether a `JSValue` is a string. -/
def JSValue.isStr : JSValue → Bool
  | .str _ => true
  | _ => false

/-- Whether a `JSValue` is a finite number. -/
def JSValue.isNum : JSValue → Bool
  | .num _ => true
  | _ => false

/-- Modelled from the spec: `InputValidator.validateInputTypeString`
(src/InputValidator.js is not under src/; only its tests are).  Fails with
`TypeError("Input must be a string")` when the input is not a string.  The
embedding returns the checked string on success (the JS method returns
nothing; the caller keeps using the original value). -/
def validateInputTypeString : JSValue → Except JsError String
  | .str s => .ok s
  | _ => .error (.typeError "Input must be a string")

/-- Modelled from the spec: `InputValidator.validateInputTypeNumber`.  Fails
with `TypeError("Input must be a number")` when the input is not a finite
number (rejects strings, NaN, Infinity, null, undefined).  Returns the
checked number on success. -/
def validateInputTypeNumber : JSValue → Except JsError ℚ
  | .num q => .ok q
  | _ => .error (.typeError "Input must be a number")

/-- Modelled from the spec: `InputValidator.validateInputTypeArray`.  Fails
with `TypeError("Input must be an array")` when the input is not an array.
Returns the element list on success. -/
def validateInputTypeArray : JSValue → Except JsError (List JSValue)
  | .arr xs => .ok xs
  | _ => .error (.typeError "Input must be an array")

/-- Modelled from the spec: `InputValidator.validatePositiveNumber`.  Fails
with `Error("Number must be positive")` when the number is `< 0`. -/
def validatePositiveNumber (x : ℚ) : Except JsError Unit :=
  if x < 0 then .error (.error "Number must be positive") else .ok ()

/-- Modelled from the spec: `InputValidator.validateCelsiusRange`.  Fails when
the temperature is below absolute zero, `x < -273.15`. -/
def validateCelsiusRange (x : ℚ) : Except JsError Unit :=
  if x < -273.15 then
    .error (.error "Temperature must be greater than or equal to -273.15°C")
  else .ok ()

/-- Modelled from the spec: `InputValidator.validateFahrenheitRange`.  Fails
when the temperature is below absolute zero, `x < -459.67`. -/
def validateFahrenheitRange (x : ℚ) : Except JsError Unit :=
  if x < -459.67 then
    .error (.error "Temperature must be greater than or equal to -459.67°F")
  else .ok ()

/-- The shared dispatch-failure error, `Error("Conversion not available")`. -/
def convNA : JsError := .error "Conversion not available"

/-- ASCII lower-casing of one character, as `String.prototype.toLowerCase`
acts on the ASCII unit and category names used throughout the library. -/
def lowerChar (c : Char) : Char :=
  if c.isUpper then Char.ofNat (c.toNat + 32) else c

/-- `String.prototype.toLowerCase` on the ASCII strings this library
compares: lower-case every character. -/
def toLowerCase (s : String) : String := ⟨s.data.map lowerChar⟩

/-! ## Pure conversion formulas (category converter classes)

Modelled from the spec: the converter classes
(LengthConverter/WeightConverter/TemperatureConverter/VolumeConverter) are not
under src/.  The spec gives `metersToFeet(x) = x * 3.28084`,
`feetToMeters(x) = x / 3.28084`, `kilogramsToPounds(x) = x * 2.20462`, the
temperature formulas, and the remaining constants are fixed by the
ConverterSelector test expectations (2.54 cm per inch, 28.3495 g per ounce,
3.78541 l per gallon, 0.473176 l per pint, 2.36588 dl per cup). -/

/-- Modelled from the spec: `LengthConverter.metersToFeet`. -/
def metersToFeet (x : ℚ) : ℚ := x * 3.28084

/-- Modelled from the spec: `LengthConverter.feetToMeters`. -/
def feetToMeters (x : ℚ) : ℚ := x / 3.28084

/-- Modelled from the spec: `LengthConverter.centimetersToInches`. -/
def centimetersToInches (x : ℚ) : ℚ := x / 2.54

/-- Modelled from the spec: `LengthConverter.inchesToCentimeters`. -/
def inchesToCentimeters (x : ℚ) : ℚ := x * 2.54

/-- Modelled from the spec: `WeightConverter.kilogramsToPounds`. -/
def kilogramsToPounds (x : ℚ) : ℚ := x * 2.20462

/-- Modelled from the spec: `WeightConverter.poundsToKilograms`. -/
def poundsToKilograms (x : ℚ) : ℚ := x / 2.20462

/-- Modelled from the spec: `WeightConverter.gramsToOunces`. -/
def gramsToOunces (x : ℚ) : ℚ := x / 28.3495

/-- Modelled from the spec: `WeightConverter.ouncesToGrams`. -/
def ouncesToGrams (x : ℚ) : ℚ := x * 28.3495

/-- Modelled from the spec: Celsius→Fahrenheit formula `x*9/5+32`. -/
def celsiusToFahrenheit (x : ℚ) : ℚ := x * 9 / 5 + 32

/-- Modelled from the spec: Fahrenheit→Celsius formula `(x-32)*5/9`. -/
def fahrenheitToCelsius (x : ℚ) : ℚ := (x - 32) * 5 / 9

/-- Modelled from the spec: `VolumeConverter.litersToGallons`. -/
def litersToGallons (x : ℚ) : ℚ := x / 3.78541

/-- Modelled from the spec: `VolumeConverter.gallonsToLiters`. -/
def gallonsToLiters (x : ℚ) : ℚ := x * 3.78541

/-- Modelled from the spec: `VolumeConverter.litersToPints`. -/
def litersToPints (x : ℚ) : ℚ := x / 0.473176

/-- Modelled from the spec: `VolumeConverter.pintsToLiters`. -/
def pintsToLiters (x : ℚ) : ℚ := x * 0.473176

/-- Modelled from the spec: `VolumeConverter.decilitersToCups`. -/
def decilitersToCups (x : ℚ) : ℚ := x / 2.36588

/-- Modelled from the spec: `VolumeConverter.cupsToDeciliters`. -/
def cupsToDeciliters (x : ℚ) : ℚ := x * 2.36588

/-! ## Unit-pair dispatch

The length and weight dispatch is translated from the older ConverterSystem
source file (src/unnamed/part_000): a switch on the lower-cased from-unit
selecting a from-handler, which switches on the lower-cased to-unit.
The `case 'x': case 'y':` fall-through pairs become disjunctions. -/

/-- `#convertFromMeters` (src/unnamed/part_000 lines 99–107). -/
def convertFromMeters (convertTo : String) (x : ℚ) : Except JsError ℚ :=
  if toLowerCase convertTo = "feet" ∨ toLowerCase convertTo = "ft" then
    .ok (metersToFeet x)
  else .error convNA

/-- `#convertFromFeet` (src/unnamed/part_000 lines 117–125). -/
def convertFromFeet (convertTo : String) (x : ℚ) : Except JsError ℚ :=
  if toLowerCase convertTo = "meters" ∨ toLowerCase convertTo = "m" then
    .ok (feetToMeters x)
  else .error convNA

/-- `#convertFromCentimeters` (src/unnamed/part_000 lines 135–143). -/
def convertFromCentimeters (convertTo : String) (x : ℚ) : Except JsError ℚ :=
  if toLowerCase convertTo = "inches" ∨ toLowerCase convertTo = "in" then
    .ok (centimetersToInches x)
  else .error convNA

/-- `#convertFromInches` (src/unnamed/part_000 lines 153–161). -/
def convertFromInches (convertTo : String) (x : ℚ) : Except JsError ℚ :=
  if toLowerCase convertTo = "centimeters" ∨ toLowerCase convertTo = "cm" then
    .ok (inchesToCentimeters x)
  else .error convNA

/-- `#convertFromKilograms` (src/unnamed/part_000 lines 171–179). -/
def convertFromKilograms (convertTo : String) (x : ℚ) : Except JsError ℚ :=
  if toLowerCase convertTo = "pounds" ∨ toLowerCase convertTo = "lb" then
    .ok (kilogramsToPounds x)
  else .error convNA

/-- `#convertFromPounds` (src/unnamed/part_000 lines 189–197). -/
def convertFromPounds (convertTo : String) (x : ℚ) : Except JsError ℚ :=
  if toLowerCase convertTo = "kilograms" ∨ toLowerCase convertTo = "kg" then
    .ok (poundsToKilograms x)
  else .error convNA

/-- `#convertFromGrams` (src/unnamed/part_000 lines 207–215). -/
def convertFromGrams (convertTo : String) (x : ℚ) : Except JsError ℚ :=
  if toLowerCase convertTo = "ounces" ∨ toLowerCase convertTo = "oz" then
    .ok (gramsToOunces x)
  else .error convNA

/-- `#convertFromOunces` (src/unnamed/part_000 lines 225–233). -/
def convertFromOunces (convertTo : String) (x : ℚ) : Except JsError ℚ :=
  if toLowerCase convertTo = "grams" ∨ toLowerCase convertTo = "g" then
    .ok (ouncesToGrams x)
  else .error convNA

/-- Length unit-pair dispatch, translated from `convertLength`
(src/unnamed/part_000 lines 44–61); in the current facade this logic lives in
`LengthConverter.convert` (not under src/), modelled from the spec to match. -/
def lengthDispatch (convertFrom convertTo : String) (x : ℚ) : Except JsError ℚ :=
  if toLowerCase convertFrom = "meters" ∨ toLowerCase convertFrom = "m" then
    convertFromMeters convertTo x
  else if toLowerCase convertFrom = "feet" ∨ toLowerCase convertFrom = "ft" then
    convertFromFeet convertTo x
  else if toLowerCase convertFrom = "centimeters" ∨ toLowerCase convertFrom = "cm" then
    convertFromCentimeters convertTo x
  else if toLowerCase convertFrom = "inches" ∨ toLowerCase convertFrom = "in" then
    convertFromInches convertTo x
  else .error convNA

/-- Weight unit-pair dispatch, translated from `convertWeight`
(src/unnamed/part_000 lines 72–89); in the current facade this logic lives in
`WeightConverter.convert` (not under src/), modelled from the spec to match. -/
def weightDispatch (convertFrom convertTo : String) (x : ℚ) : Except JsError ℚ :=
  if toLowerCase convertFrom = "kilograms" ∨ toLowerCase convertFrom = "kg" then
    convertFromKilograms convertTo x
  else if toLowerCase convertFrom = "pounds" ∨ toLowerCase convertFrom = "lb" then
    convertFromPounds convertTo x
  else if toLowerCase convertFrom = "grams" ∨ toLowerCase convertFrom = "g" then
    convertFromGrams convertTo x
  else if toLowerCase convertFrom = "ounces" ∨ toLowerCase convertFrom = "oz" then
    convertFromOunces convertTo x
  else .error convNA

/-- Modelled from the spec: `TemperatureConverter.convert` (not under src/).
Supports celsius↔fahrenheit; the absolute-zero range check happens inside the
temperature converter itself, on the source unit's scale. -/
def temperatureDispatch (convertFrom convertTo : String) (x : ℚ) :
    Except JsError ℚ :=
  if toLowerCase convertFrom = "celsius" then do
    validateCelsiusRange x
    if toLowerCase convertTo = "fahrenheit" then .ok (celsiusToFahrenheit x)
    else .error convNA
  else if toLowerCase convertFrom = "fahrenheit" then do
    validateFahrenheitRange x
    if toLowerCase convertTo = "celsius" then .ok (fahrenheitToCelsius x)
    else .error convNA
  else .error convNA

/-- Modelled from the spec: `VolumeConverter.convert` (not under src/).
Unit pairs fixed by the ConverterSelector tests: liters→gallons,
liters→pints, gallons→liters, pints→liters, deciliters→cups,
cups→deciliters. -/
def volumeDispatch (convertFrom convertTo : String) (x : ℚ) :
    Except JsError ℚ :=
  if toLowerCase convertFrom = "liters" then
    (if toLowerCase convertTo = "gallons" then .ok (litersToGallons x)
     else if toLowerCase convertTo = "pints" then .ok (litersToPints x)
     else .error convNA)
  else if toLowerCase convertFrom = "gallons" then
    (if toLowerCase convertTo = "liters" then .ok (gallonsToLiters x)
     else .error convNA)
  else if toLowerCase convertFrom = "pints" then
    (if toLowerCase convertTo = "liters" then .ok (pintsToLiters x)
     else .error convNA)
  else if toLowerCase convertFrom = "deciliters" then
    (if toLowerCase convertTo = "cups" then .ok (decilitersToCups x)
     else .error convNA)
  else if toLowerCase convertFrom = "cups" then
    (if toLowerCase convertTo = "deciliters" then .ok (cupsToDeciliters x)
     else .error convNA)
  else .error convNA

/-- Modelled from the spec: `SpeedConverter.convert` (not under src/).  The
spec names no speed unit pairs, so every requested pair is unavailable. -/
def speedDispatch (_convertFrom _convertTo : String) (_x : ℚ) :
    Except JsError ℚ :=
  .error convNA

/-! ## ConverterSystem facade (src/src/ConverterSystem.js) -/

/-- `ConverterSystem.#validateInputs` (lines 49–53): from/to must be strings,
the value must be a finite number, in that order.  Returns the extracted
triple for the caller. -/
def validateInputs (convertFrom convertTo numberToConvert : JSValue) :
    Except JsError (String × String × ℚ) := do
  let f ← validateInputTypeString convertFrom
  let t ← validateInputTypeString convertTo
  let x ← validateInputTypeNumber numberToConvert
  .ok (f, t, x)

/-- `ConverterSystem.convertTemperature` (lines 79–83). -/
def convertTemperature (convertFrom convertTo numberToConvert : JSValue) :
    Except JsError ℚ := do
  let (f, t, x) ← validateInputs convertFrom convertTo numberToConvert
  temperatureDispatch f t x

/-- `ConverterSystem.convertLength` (lines 94–99). -/
def convertLength (convertFrom convertTo numberToConvert : JSValue) :
    Except JsError ℚ := do
  let (f, t, x) ← validateInputs convertFrom convertTo numberToConvert
  validatePositiveNumber x
  lengthDispatch f t x

/-- `ConverterSystem.convertSpeed` (lines 110–115). -/
def convertSpeed (convertFrom convertTo numberToConvert : JSValue) :
    Except JsError ℚ := do
  let (f, t, x) ← validateInputs convertFrom convertTo numberToConvert
  validatePositiveNumber x
  speedDispatch f t x

/-- `ConverterSystem.convertWeight` (lines 126–131). -/
def convertWeight (convertFrom convertTo numberToConvert : JSValue) :
    Except JsError ℚ := do
  let (f, t, x) ← validateInputs convertFrom convertTo numberToConvert
  validatePositiveNumber x
  weightDispatch f t x

/-- `ConverterSystem.convertVolume` (lines 142–147). -/
def convertVolume (convertFrom convertTo numberToConvert : JSValue) :
    Except JsError ℚ := do
  let (f, t, x) ← validateInputs convertFrom convertTo numberToConvert
  validatePositiveNumber x
  volumeDispatch f t x

/-- The OWN properties of the `#conversionMethods` object literal
(lines 33–39): exactly the five lower-case category keys, each bound to its
per-category entry point.  This is only the own-property table; the bracket
lookup on line 63 additionally walks the prototype chain — see
`conversionMethodsLookup`. -/
def conversionMethods (key : String) :
    Option (JSValue → JSValue → JSValue → Except JsError ℚ) :=
  if key = "temperature" then some convertTemperature
  else if key = "length" then some convertLength
  else if key = "speed" then some convertSpeed
  else if key = "weight" then some convertWeight
  else if key = "volume" then some convertVolume
  else none

/-- What `#conversionMethods[key]` can evaluate to: a bound converter method
(own property), the inherited `Object` constructor, the inherited
`Object.prototype` object (from the `__proto__` accessor), or `undefined`. -/
inductive MethodLookup where
  | method (m : JSValue → JSValue → JSValue → Except JsError ℚ)
  | objectCtor
  | objectProto
  | missing

/-- The JavaScript property lookup `#conversionMethods[key]` (line 63).  An
own key yields the bound converter; otherwise the lookup walks the prototype
chain to `Object.prototype`, whose only all-lower-case property names — the
only ones reachable after `toLowerCase()` — are `constructor` (the `Object`
function) and `__proto__` (an accessor returning `Object.prototype` itself);
every other key reads `undefined`. -/
def conversionMethodsLookup (key : String) : MethodLookup :=
  match conversionMethods key with
  | some m => .method m
  | none =>
    if key = "constructor" then .objectCtor
    else if key = "__proto__" then .objectProto
    else .missing

/-- `ConverterSystem.#chooseConversionMethod` (lines 62–68): look up
`conversionType.toLowerCase()` on the `#conversionMethods` object and return
the value unless it is falsy.  Both reachable inherited values are truthy, so
only a true property miss (`undefined`) throws
`Error("Conversion not available")`. -/
def chooseConversionMethod (conversionType : String) :
    Except JsError MethodLookup :=
  match conversionMethodsLookup (toLowerCase conversionType) with
  | .method m => .ok (.method m)
  | .objectCtor => .ok .objectCtor
  | .objectProto => .ok .objectProto
  | .missing => .error convNA

/-- The call `conversionMethod(convertFrom, convertTo, number)` on the
resolved lookup value: a bound converter runs and returns a number; the
inherited `Object` constructor coerces its first argument to an object and
returns it (never a number, never a throw); `Object.prototype` is not
callable and the call throws a `TypeError`; so does calling `undefined`
(unreachable behind `chooseConversionMethod`). -/
def callConversionMethod :
    MethodLookup → JSValue → JSValue → JSValue → Except JsError JSValue
  | .method m, cf, ct, v => (m cf ct v).map .num
  | .objectCtor, _, _, _ => .ok .obj
  | .objectProto, _, _, _ =>
    .error (.typeError "conversionMethod is not a function")
  | .missing, _, _, _ =>
    .error (.typeError "conversionMethod is not a function")

/-- `Array.prototype.map` with a throwing callback, as used by
`convertMultipleValues` (line 164): elements are converted left to right and
the first thrown error aborts the whole traversal. -/
def mapConvert {α : Type} (m : JSValue → Except JsError α) :
    List JSValue → Except JsError (List α)
  | [] => .ok []
  | x :: xs => do
    let y ← m x
    let ys ← mapConvert m xs
    .ok (y :: ys)

/-- `ConverterSystem.convertMultipleValues` (lines 158–165): validates the
category is a string and the batch is an array, resolves the per-category
conversion, then maps it over the elements. -/
def convertMultipleValues
    (conversionType convertFrom convertTo numbersToConvert : JSValue) :
    Except JsError (List JSValue) := do
  let t ← validateInputTypeString conversionType
  let xs ← validateInputTypeArray numbersToConvert
  let m ← chooseConversionMethod t
  mapConvert (fun n => callConversionMethod m convertFrom convertTo n) xs

/-- The record returned by `convertWithSummary` (lines 183–189). -/
structure ConversionSummary where
  conversionType : JSValue
  convertFrom : JSValue
  convertTo : JSValue
  numberToConvert : JSValue
  convertedNumber : JSValue

/-- `ConverterSystem.convertWithSummary` (lines 176–190): validates the
category is a string, resolves and runs the conversion, and echoes every
argument unchanged next to the converted number. -/
def convertWithSummary
    (conversionType convertFrom convertTo numberToConvert : JSValue) :
    Except JsError ConversionSummary := do
  let t ← validateInputTypeString conversionType
  let m ← chooseConversionMethod t
  let convertedNumber ← callConversionMethod m convertFrom convertTo
    numberToConvert
  .ok { conversionType := conversionType
        convertFrom := convertFrom
        convertTo := convertTo
        numberToConvert := numberToConvert
        convertedNumber := convertedNumber }

/-- ECMAScript `ToIntegerOrInfinity` restricted to finite numbers: truncation
toward zero. -/
def jsTrunc (q : ℚ) : ℤ :=
  if q < 0 then -(⌊-q⌋) else ⌊q⌋

/-- Round a rational to the nearest integer, ties toward the larger integer —
the integer-selection rule of `Number.prototype.toFixed` step "pick the larger
n", applied after the sign has been split off. -/
def roundTiesUp (q : ℚ) : ℤ := ⌊q + 1 / 2⌋

/-- The numeric value of the decimal string `x.toFixed(f)`: ECMAScript splits
off the sign, scales the magnitude by `10^f`, picks the nearest integer (ties
toward the larger, i.e. away from zero for the magnitude) and re-applies the
sign. -/
def jsToFixedVal (x : ℚ) (f : ℕ) : ℚ :=
  if x < 0 then -((roundTiesUp (-x * 10 ^ f) : ℚ) / 10 ^ f)
  else (roundTiesUp (x * 10 ^ f) : ℚ) / 10 ^ f

/-- `Number.prototype.toFixed` as used on line 210, composed with
`parseFloat`: the digits argument is truncated toward zero and must land in
`[0, 100]` (otherwise a `RangeError` is thrown); the produced decimal string
re-parsed by `parseFloat` denotes exactly `jsToFixedVal` in the exact-rational
embedding. -/
def jsToFixedParsed (x : ℚ) (digits : ℚ) : Except JsError ℚ :=
  let f := jsTrunc digits
  if f < 0 ∨ 100 < f then
    .error (.rangeError "toFixed() digits argument must be between 0 and 100")
  else .ok (jsToFixedVal x f.toNat)

/-- `ConverterSystem.convertAndRoundUp` (lines 202–211): validates the
category is a string and `decimalPlaces` a finite number, resolves and runs
the conversion, then returns `parseFloat(converted.toFixed(decimalPlaces))`;
when the resolved call produced a non-number (the inherited-constructor
path), the `.toFixed` access throws a `TypeError`. -/
def convertAndRoundUp
    (conversionType convertFrom convertTo numberToConvert decimalPlaces :
      JSValue) : Except JsError ℚ := do
  let t ← validateInputTypeString conversionType
  let d ← validateInputTypeNumber decimalPlaces
  let m ← chooseConversionMethod t
  let convertedNumber ← callConversionMethod m convertFrom convertTo
    numberToConvert
  match convertedNumber with
  | .num q => jsToFixedParsed q d
  | _ => .error (.typeError "convertedNumber.toFixed is not a function")

/-- Decimal rounding as the spec words it for `convertAndRoundUp`: "standard
decimal rounding (half-away-from-zero at the float level)" — scale by
`10^f`, round half away from zero, scale back.  Stated from the spec's words,
to be compared with `jsToFixedVal`, which is translated from the code's
`toFixed` mechanism. -/
def specDecimalRound (x : ℚ) (f : ℕ) : ℚ :=
  ((if x * 10 ^ f < 0 then -⌊-(x * 10 ^ f) + 1 / 2⌋ else ⌊x * 10 ^ f + 1 / 2⌋ :
      ℤ) : ℚ) / 10 ^ f

namespace ConverterSelector

/-- Modelled from the spec: `ConverterSelector.convertFromCelsius`
(src/ConverterSelector.js is not under src/; only its tests are, in
src/unnamed/part_001).  Applies the absolute-zero range check, then converts
to Fahrenheit via `x*9/5+32`; any other target unit is unavailable. -/
def convertFromCelsius (convertTo : String) (x : ℚ) : Except JsError ℚ := do
  validateCelsiusRange x
  if toLowerCase convertTo = "fahrenheit" then .ok (celsiusToFahrenheit x)
  else .error convNA

/-- Modelled from the spec: `ConverterSelector.convertFromFahrenheit`.
Applies the absolute-zero range check, then converts to Celsius via
`(x-32)*5/9`; any other target unit is unavailable. -/
def convertFromFahrenheit (convertTo : String) (x : ℚ) : Except JsError ℚ := do
  validateFahrenheitRange x
  if toLowerCase convertTo = "celsius" then .ok (fahrenheitToCelsius x)
  else .error convNA

end ConverterSelector

/-! ## Helper lemmas -/

@[simp]
theorem ok_bind {α β : Type} (a : α) (f : α → Except JsError β) :
    (Except.ok a >>= f) = f a := rfl

@[simp]
theorem err_bind {α β : Type} (e : JsError) (f : α → Except JsError β) :
    ((Except.error e : Except JsError α) >>= f) = .error e := rfl

theorem validateInputs_err_from {cf ct n : JSValue} (h : cf.isStr = false) :
    validateInputs cf ct n = .error (.typeError "Input must be a string") := by
  cases cf <;>
    simp_all [validateInputs, validateInputTypeString, JSValue.isStr,
      Except.bind]

theorem validateInputs_err_to {cf ct n : JSValue} (h : cf.isStr = true)
    (h2 : ct.isStr = false) :
    validateInputs cf ct n = .error (.typeError "Input must be a string") := by
  cases cf <;> cases ct <;>
    simp_all [validateInputs, validateInputTypeString, JSValue.isStr,
      Except.bind]

theorem validateInputs_err_num {cf ct n : JSValue} (h : cf.isStr = true)
    (h2 : ct.isStr = true) (h3 : n.isNum = false) :
    validateInputs cf ct n = .error (.typeError "Input must be a number") := by
  cases cf <;> cases ct <;> cases n <;>
    simp_all [validateInputs, validateInputTypeString, validateInputTypeNumber,
      JSValue.isStr, JSValue.isNum, Except.bind]

theorem validateInputs_ok (f t : String) (x : ℚ) :
    validateInputs (.str f) (.str t) (.num x) = .ok (f, t, x) := rfl

theorem convertTemperature_eq (f t : String) (x : ℚ) :
    convertTemperature (.str f) (.str t) (.num x) =
      temperatureDispatch f t x := rfl

theorem convertLength_eq (f t : String) (x : ℚ) :
    convertLength (.str f) (.str t) (.num x) =
      if x < 0 then .error (.error "Number must be positive")
      else lengthDispatch f t x := by
  by_cases hx : x < 0 <;>
    simp [convertLength, validateInputs_ok, validatePositiveNumber, hx,
      Except.bind]

theorem convertSpeed_eq (f t : String) (x : ℚ) :
    convertSpeed (.str f) (.str t) (.num x) =
      if x < 0 then .error (.error "Number must be positive")
      else speedDispatch f t x := by
  by_cases hx : x < 0 <;>
    simp [convertSpeed, validateInputs_ok, validatePositiveNumber, hx,
      Except.bind]

theorem convertWeight_eq (f t : String) (x : ℚ) :
    convertWeight (.str f) (.str t) (.num x) =
      if x < 0 then .error (.error "Number must be positive")
      else weightDispatch f t x := by
  by_cases hx : x < 0 <;>
    simp [convertWeight, validateInputs_ok, validatePositiveNumber, hx,
      Except.bind]

theorem convertVolume_eq (f t : String) (x : ℚ) :
    convertVolume (.str f) (.str t) (.num x) =
      if x < 0 then .error (.error "Number must be positive")
      else volumeDispatch f t x := by
  by_cases hx : x < 0 <;>
    simp [convertVolume, validateInputs_ok, validatePositiveNumber, hx,
      Except.bind]

/-! ## Spec properties used by the C1 statement -/

/-- The entry point checks from/to are strings and the value is a finite
number, in that order, throwing the matching `TypeError` for the first
failing argument. -/
def TypeChecksFirst
    (conv : JSValue → JSValue → JSValue → Except JsError ℚ) : Prop :=
  ∀ cf ct n : JSValue,
    (cf.isStr = false →
      conv cf ct n = .error (.typeError "Input must be a string")) ∧
    (cf.isStr = true → ct.isStr = false →
      conv cf ct n = .error (.typeError "Input must be a string")) ∧
    (cf.isStr = true → ct.isStr = true → n.isNum = false →
      conv cf ct n = .error (.typeError "Input must be a number"))

/-- The entry point throws `Error("Number must be positive")` on every
negative value (once the arguments are well-shaped). -/
def RejectsNegative
    (conv : JSValue → JSValue → JSValue → Except JsError ℚ) : Prop :=
  ∀ (f t : String) (x : ℚ), x < 0 →
    conv (.str f) (.str t) (.num x) =
      .error (.error "Number must be positive")

/-- A `Conversion not available` outcome is possible only once both units are
strings and the value is a finite number. -/
def ShapeBeforeDispatch
    (conv : JSValue → JSValue → JSValue → Except JsError ℚ) : Prop :=
  ∀ cf ct n : JSValue, conv cf ct n = .error convNA →
    cf.isStr = true ∧ ct.isStr = true ∧ n.isNum = true

/-- A `Conversion not available` outcome is possible only for a non-negative
value (the positivity check runs before dispatch). -/
def SignBeforeDispatch
    (conv : JSValue → JSValue → JSValue → Except JsError ℚ) : Prop :=
  ∀ (f t : String) (x : ℚ),
    conv (.str f) (.str t) (.num x) = .error convNA → 0 ≤ x

theorem typeChecksFirst_of_eq
    (conv : JSValue → JSValue → JSValue → Except JsError ℚ)
    (h : ∀ cf ct n, validateInputs cf ct n = .error (.typeError "Input must be a string") →
        conv cf ct n = .error (.typeError "Input must be a string"))
    (h2 : ∀ cf ct n, validateInputs cf ct n = .error (.typeError "Input must be a number") →
        conv cf ct n = .error (.typeError "Input must be a number")) :
    TypeChecksFirst conv := by
  intro cf ct n
  refine ⟨?_, ?_, ?_⟩
  · intro hs
    exact h cf ct n (validateInputs_err_from hs)
  · intro hs hs2
    exact h cf ct n (validateInputs_err_to hs hs2)
  · intro hs hs2 hn
    exact h2 cf ct n (validateInputs_err_num hs hs2 hn)

theorem convertTemperature_err {cf ct n : JSValue} {e : JsError}
    (h : validateInputs cf ct n = .error e) :
    convertTemperature cf ct n = .error e := by
  simp [convertTemperature, h]

theorem convertLength_err {cf ct n : JSValue} {e : JsError}
    (h : validateInputs cf ct n = .error e) :
    convertLength cf ct n = .error e := by
  simp [convertLength, h]

theorem convertSpeed_err {cf ct n : JSValue} {e : JsError}
    (h : validateInputs cf ct n = .error e) :
    convertSpeed cf ct n = .error e := by
  simp [convertSpeed, h]

theorem convertWeight_err {cf ct n : JSValue} {e : JsError}
    (h : validateInputs cf ct n = .error e) :
    convertWeight cf ct n = .error e := by
  simp [convertWeight, h]

theorem convertVolume_err {cf ct n : JSValue} {e : JsError}
    (h : validateInputs cf ct n = .error e) :
    convertVolume cf ct n = .error e := by
  simp [convertVolume, h]

theorem typeChecksFirst_convertTemperature : TypeChecksFirst convertTemperature :=
  typeChecksFirst_of_eq _ (fun _ _ _ h => convertTemperature_err h)
    (fun _ _ _ h => convertTemperature_err h)

theorem typeChecksFirst_convertLength : TypeChecksFirst convertLength :=
  typeChecksFirst_of_eq _ (fun _ _ _ h => convertLength_err h)
    (fun _ _ _ h => convertLength_err h)

theorem typeChecksFirst_convertSpeed : TypeChecksFirst convertSpeed :=
  typeChecksFirst_of_eq _ (fun _ _ _ h => convertSpeed_err h)
    (fun _ _ _ h => convertSpeed_err h)

theorem typeChecksFirst_convertWeight : TypeChecksFirst convertWeight :=
  typeChecksFirst_of_eq _ (fun _ _ _ h => convertWeight_err h)
    (fun _ _ _ h => convertWeight_err h)

theorem typeChecksFirst_convertVolume : TypeChecksFirst convertVolume :=
  typeChecksFirst_of_eq _ (fun _ _ _ h => convertVolume_err h)
    (fun _ _ _ h => convertVolume_err h)

theorem rejectsNegative_convertLength : RejectsNegative convertLength := by
  intro f t x hx
  rw [convertLength_eq, if_pos hx]

theorem rejectsNegative_convertSpeed : RejectsNegative convertSpeed := by
  intro f t x hx
  rw [convertSpeed_eq, if_pos hx]

theorem rejectsNegative_convertWeight : RejectsNegative convertWeight := by
  intro f t x hx
  rw [convertWeight_eq, if_pos hx]

theorem rejectsNegative_convertVolume : RejectsNegative convertVolume := by
  intro f t x hx
  rw [convertVolume_eq, if_pos hx]

theorem shapeBeforeDispatch_of_typeChecks
    (conv : JSValue → JSValue → JSValue → Except JsError ℚ)
    (h : TypeChecksFirst conv) : ShapeBeforeDispatch conv := by
  intro cf ct n hna
  obtain ⟨h1, h2, h3⟩ := h cf ct n
  refine ⟨?_, ?_, ?_⟩
  · cases hs : cf.isStr with
    | true => rfl
    | false => rw [h1 hs] at hna; simp [convNA] at hna
  · cases hs : cf.isStr with
    | false => rw [h1 hs] at hna; simp [convNA] at hna
    | true =>
      cases hs2 : ct.isStr with
      | true => rfl
      | false => rw [h2 hs hs2] at hna; simp [convNA] at hna
  · cases hs : cf.isStr with
    | false => rw [h1 hs] at hna; simp [convNA] at hna
    | true =>
      cases hs2 : ct.isStr with
      | false => rw [h2 hs hs2] at hna; simp [convNA] at hna
      | true =>
        cases hs3 : n.isNum with
        | true => rfl
        | false => rw [h3 hs hs2 hs3] at hna; simp [convNA] at hna

theorem signBeforeDispatch_convertLength : SignBeforeDispatch convertLength := by
  intro f t x h
  by_contra hx
  push_neg at hx
  rw [convertLength_eq, if_pos hx] at h
  simp [convNA] at h

theorem signBeforeDispatch_convertSpeed : SignBeforeDispatch convertSpeed := by
  intro f t x h
  by_contra hx
  push_neg at hx
  rw [convertSpeed_eq, if_pos hx] at h
  simp [convNA] at h

theorem signBeforeDispatch_convertWeight : SignBeforeDispatch convertWeight := by
  intro f t x h
  by_contra hx
  push_neg at hx
  rw [convertWeight_eq, if_pos hx] at h
  simp [convNA] at h

theorem signBeforeDispatch_convertVolume : SignBeforeDispatch convertVolume := by
  intro f t x h
  by_contra hx
  push_neg at hx
  rw [convertVolume_eq, if_pos hx] at h
  simp [convNA] at h

/-- C1: every per-category entry point type-checks the from/to arguments as
strings first, then the value as a finite number, throwing
`TypeError("Input must be a string")` / `TypeError("Input must be a number")`;
length, speed, weight and volume then reject every negative value with
`Error("Number must be positive")`; and a
`Error("Conversion not available")` dispatch outcome is possible only once
all of these input-shape checks have passed (including, for the four
non-temperature categories, the positivity check). -/
theorem C1_validation_order :
    TypeChecksFirst convertTemperature ∧ TypeChecksFirst convertLength ∧
    TypeChecksFirst convertSpeed ∧ TypeChecksFirst convertWeight ∧
    TypeChecksFirst convertVolume ∧
    RejectsNegative convertLength ∧ RejectsNegative convertSpeed ∧
    RejectsNegative convertWeight ∧ RejectsNegative convertVolume ∧
    ShapeBeforeDispatch convertTemperature ∧
    ShapeBeforeDispatch convertLength ∧ ShapeBeforeDispatch convertSpeed ∧
    ShapeBeforeDispatch convertWeight ∧ ShapeBeforeDispatch convertVolume ∧
    SignBeforeDispatch convertLength ∧ SignBeforeDispatch convertSpeed ∧
    SignBeforeDispatch convertWeight ∧ SignBeforeDispatch convertVolume :=
  ⟨typeChecksFirst_convertTemperature, typeChecksFirst_convertLength,
   typeChecksFirst_convertSpeed, typeChecksFirst_convertWeight,
   typeChecksFirst_convertVolume,
   rejectsNegative_convertLength, rejectsNegative_convertSpeed,
   rejectsNegative_convertWeight, rejectsNegative_convertVolume,
   shapeBeforeDispatch_of_typeChecks _ typeChecksFirst_convertTemperature,
   shapeBeforeDispatch_of_typeChecks _ typeChecksFirst_convertLength,
   shapeBeforeDispatch_of_typeChecks _ typeChecksFirst_convertSpeed,
   shapeBeforeDispatch_of_typeChecks _ typeChecksFirst_convertWeight,
   shapeBeforeDispatch_of_typeChecks _ typeChecksFirst_convertVolume,
   signBeforeDispatch_convertLength, signBeforeDispatch_convertSpeed,
   signBeforeDispatch_convertWeight, signBeforeDispatch_convertVolume⟩

/-- Witness for C1 at concrete inputs: a numeric from-unit makes
`convertLength` throw the string `TypeError`; a NaN value makes
`convertTemperature` throw the number `TypeError`; a negative value makes
`convertWeight` throw `Number must be positive`. -/
theorem C1_validation_order_witness :
    convertLength (.num 1) (.str "ft") (.num 2) =
      .error (.typeError "Input must be a string") ∧
    convertTemperature (.str "celsius") (.str "fahrenheit") .nan =
      .error (.typeError "Input must be a number") ∧
    convertWeight (.str "kilograms") (.str "pounds") (.num (-3)) =
      .error (.error "Number must be positive") := by
  obtain ⟨h1, h2, _, h4, _, _, _, h8, _⟩ := C1_validation_order
  exact ⟨(h2 (.num 1) (.str "ft") (.num 2)).1 rfl,
    (h1 (.str "celsius") (.str "fahrenheit") .nan).2.2 rfl rfl rfl,
    h8 "kilograms" "pounds" (-3) (by norm_num)⟩

theorem chooseConversionMethod_some {t : String}
    {m : JSValue → JSValue → JSValue → Except JsError ℚ}
    (h : conversionMethods (toLowerCase t) = some m) :
    chooseConversionMethod t = .ok (.method m) := by
  simp [chooseConversionMethod, conversionMethodsLookup, h]

theorem conversionMethods_eq_none {key : String}
    (h : key ∉ (["temperature", "length", "speed", "weight", "volume"] :
      List String)) :
    conversionMethods key = none := by
  simp only [List.mem_cons, List.not_mem_nil, or_false, not_or] at h
  obtain ⟨h1, h2, h3, h4, h5⟩ := h
  simp [conversionMethods, h1, h2, h3, h4, h5]

theorem conversionMethodsLookup_missing {key : String}
    (h : key ∉ (["temperature", "length", "speed", "weight", "volume"] :
      List String))
    (hc : key ≠ "constructor") (hp : key ≠ "__proto__") :
    conversionMethodsLookup key = .missing := by
  simp [conversionMethodsLookup, conversionMethods_eq_none h, hc, hp]

theorem chooseConversionMethod_miss {t : String}
    (h : conversionMethodsLookup (toLowerCase t) = .missing) :
    chooseConversionMethod t = .error convNA := by
  simp [chooseConversionMethod, h]

theorem callConversionMethod_method
    (m : JSValue → JSValue → JSValue → Except JsError ℚ)
    (cf ct v : JSValue) :
    callConversionMethod (.method m) cf ct v = (m cf ct v).map .num := rfl

theorem convertMultipleValues_eq {t : String}
    {m : JSValue → JSValue → JSValue → Except JsError ℚ}
    (hm : conversionMethods (toLowerCase t) = some m)
    (cf ct : JSValue) (xs : List JSValue) :
    convertMultipleValues (.str t) cf ct (.arr xs) =
      mapConvert (fun n => (m cf ct n).map JSValue.num) xs := by
  simp [convertMultipleValues, validateInputTypeString, validateInputTypeArray,
    chooseConversionMethod_some hm, callConversionMethod]

/-- C9: with a known category and an empty batch, `convertMultipleValues`
returns the empty array without ever invoking the per-category conversion on
anything — the from/to arguments are arbitrary `JSValue`s (possibly
non-strings) and cause no error. -/
theorem C9_empty_batch (t : String)
    (m : JSValue → JSValue → JSValue → Except JsError ℚ)
    (hm : conversionMethods (toLowerCase t) = some m) (cf ct : JSValue) :
    convertMultipleValues (.str t) cf ct (.arr []) = .ok [] := by
  rw [convertMultipleValues_eq hm]
  rfl

/-- Witness for C9: category `"length"`, a numeric from-unit and an undefined
to-unit, empty batch — no error, empty result. -/
theorem C9_empty_batch_witness :
    convertMultipleValues (.str "length") (.num 1) JSValue.undef (.arr []) =
      .ok [] :=
  C9_empty_batch "length" convertLength rfl (.num 1) JSValue.undef

theorem genuineMissUnknownCategory (t : String)
    (h : toLowerCase t ∉
      (["temperature", "length", "speed", "weight", "volume"] :
        List String))
    (hc : toLowerCase t ≠ "constructor")
    (hp : toLowerCase t ≠ "__proto__") :
    (∀ cf ct v, convertWithSummary (.str t) cf ct v = .error convNA) ∧
    (∀ cf ct xs,
      convertMultipleValues (.str t) cf ct (.arr xs) = .error convNA) ∧
    (∀ cf ct v (d : ℚ),
      convertAndRoundUp (.str t) cf ct v (.num d) = .error convNA) := by
  have hch :=
    chooseConversionMethod_miss (conversionMethodsLookup_missing h hc hp)
  refine ⟨?_, ?_, ?_⟩
  · intro cf ct v
    simp [convertWithSummary, validateInputTypeString, hch]
  · intro cf ct xs
    simp [convertMultipleValues, validateInputTypeString,
      validateInputTypeArray, hch]
  · intro cf ct v d
    simp [convertAndRoundUp, validateInputTypeString, validateInputTypeNumber,
      hch]

/-- C3: the claim fails on the code (code bug).  The `#conversionMethods`
object literal inherits `Object.prototype`, so the category strings
`"constructor"` and `"__proto__"` — whose lower-casings are not among the
five keys — resolve to truthy inherited values at ConverterSystem.js line 63
and do NOT throw `Error("Conversion not available")`: `convertWithSummary`
and `convertMultipleValues` with category `"constructor"` return results
(objects produced by the inherited `Object` constructor), and `"__proto__"`
fails with a not-a-function `TypeError` instead; a genuinely unknown key such
as `"bogus"` still throws `Conversion not available`, which the code's own
`@throws` documentation on `#chooseConversionMethod` and the spec's fixed
five-key mapping present as the intent for every non-key category. -/
theorem C3_prototype_leak :
    toLowerCase "constructor" ∉
      (["temperature", "length", "speed", "weight", "volume"] :
        List String) ∧
    toLowerCase "__proto__" ∉
      (["temperature", "length", "speed", "weight", "volume"] :
        List String) ∧
    convertWithSummary (.str "constructor") (.str "meters") (.str "feet")
      (.num 1) =
      .ok { conversionType := .str "constructor",
            convertFrom := .str "meters", convertTo := .str "feet",
            numberToConvert := .num 1, convertedNumber := JSValue.obj } ∧
    convertMultipleValues (.str "constructor") (.str "meters") (.str "feet")
      (.arr [.num 1, .num 2]) = .ok [JSValue.obj, JSValue.obj] ∧
    convertWithSummary (.str "__proto__") (.str "meters") (.str "feet")
      (.num 1) =
      .error (.typeError "conversionMethod is not a function") ∧
    convertWithSummary (.str "bogus") (.str "meters") (.str "feet")
      (.num 1) = .error convNA :=
  ⟨by decide, by decide, rfl, rfl, rfl, rfl⟩

theorem mapConvert_ok {α : Type} {m : JSValue → Except JsError α} :
    ∀ {xs : List JSValue} {rs : List α}, mapConvert m xs = .ok rs →
      rs.length = xs.length ∧
      ∀ (i : ℕ) (hi : i < xs.length) (hr : i < rs.length),
        m (xs.get ⟨i, hi⟩) = .ok (rs.get ⟨i, hr⟩) := by
  intro xs
  induction xs with
  | nil =>
    intro rs h
    simp only [mapConvert, Except.ok.injEq] at h
    subst h
    exact ⟨rfl, fun i hi _ => absurd hi (by simp)⟩
  | cons x xs ih =>
    intro rs h
    simp only [mapConvert] at h
    cases hmx : m x with
    | error e => rw [hmx] at h; simp at h
    | ok y =>
      rw [hmx] at h
      simp only [ok_bind] at h
      cases hrest : mapConvert m xs with
      | error e => rw [hrest] at h; simp at h
      | ok ys =>
        rw [hrest] at h
        simp only [ok_bind, Except.ok.injEq] at h
        subst h
        obtain ⟨ihl, ihg⟩ := ih hrest
        refine ⟨by simp [ihl], ?_⟩
        intro i hi hr
        cases i with
        | zero => simpa using hmx
        | succ j => exact ihg j (by simpa using hi) (by simpa using hr)

theorem mapConvert_abort {α : Type} {m : JSValue → Except JsError α}
    {xs : List JSValue} {x : JSValue} {e : JsError} (hx : x ∈ xs)
    (he : m x = .error e) :
    ∀ rs : List α, mapConvert m xs ≠ .ok rs := by
  intro rs h
  obtain ⟨hl, hg⟩ := mapConvert_ok h
  obtain ⟨⟨i, hi⟩, hix⟩ := List.mem_iff_get.mp hx
  have h2 := hg i hi (by rw [hl]; exact hi)
  rw [hix, he] at h2
  simp at h2

/-- C2: with a known category, `convertMultipleValues` on an array returns
(when it returns at all) a list of exactly the same length whose i-th entry
is the (number-valued) result of the resolved per-category conversion of the
i-th input, in order; and if any single element makes the resolved conversion
throw, the whole call throws — no list, in particular no partial prefix, is
ever returned. -/
theorem C2_multiple_values (t : String)
    (m : JSValue → JSValue → JSValue → Except JsError ℚ) (cf ct : JSValue)
    (xs : List JSValue) (hm : conversionMethods (toLowerCase t) = some m) :
    (∀ rs, convertMultipleValues (.str t) cf ct (.arr xs) = .ok rs →
      rs.length = xs.length ∧
      ∀ (i : ℕ) (hi : i < xs.length) (hr : i < rs.length),
        (m cf ct (xs.get ⟨i, hi⟩)).map JSValue.num = .ok (rs.get ⟨i, hr⟩)) ∧
    (∀ x ∈ xs, ∀ e : JsError, m cf ct x = .error e →
      ∀ rs, convertMultipleValues (.str t) cf ct (.arr xs) ≠ .ok rs) := by
  constructor
  · intro rs h
    rw [convertMultipleValues_eq hm] at h
    exact mapConvert_ok h
  · intro x hx e he rs
    rw [convertMultipleValues_eq hm]
    have he2 : (m cf ct x).map JSValue.num = .error e := by
      rw [he]
      rfl
    exact mapConvert_abort hx he2 rs

/-- Witness for C2: a single negative element aborts a length batch — the
call cannot return any list. -/
theorem C2_multiple_values_witness :
    convertMultipleValues (.str "length") (.str "meters") (.str "feet")
      (.arr [.num (-1)]) ≠ .ok [.num 0] := by
  refine (C2_multiple_values "length" convertLength (.str "meters")
    (.str "feet") [.num (-1)] rfl).2 (.num (-1)) (by simp)
    (.error "Number must be positive") ?_ [.num 0]
  rw [convertLength_eq]
  norm_num

/-- C8: `convertWithSummary` returns a record whose `conversionType`,
`convertFrom`, `convertTo` and `numberToConvert` fields are exactly the
arguments passed in, and whose `convertedNumber` equals the result of the
resolved base per-category conversion of the same arguments. -/
theorem C8_summary_echo (t : String)
    (m : JSValue → JSValue → JSValue → Except JsError ℚ)
    (cf ct v : JSValue) (y : ℚ)
    (hm : conversionMethods (toLowerCase t) = some m)
    (hy : m cf ct v = .ok y) :
    convertWithSummary (.str t) cf ct v =
      .ok { conversionType := .str t, convertFrom := cf, convertTo := ct,
            numberToConvert := v, convertedNumber := .num y } := by
  simp [convertWithSummary, validateInputTypeString,
    chooseConversionMethod_some hm, callConversionMethod, hy, Except.map]

/-- Witness for C8: 2 meters to feet with the summary record echoed. -/
theorem C8_summary_echo_witness :
    convertWithSummary (.str "length") (.str "meters") (.str "feet")
      (.num 2) =
      .ok { conversionType := .str "length", convertFrom := .str "meters",
            convertTo := .str "feet", numberToConvert := .num 2,
            convertedNumber := .num 6.56168 } := by
  refine C8_summary_echo "length" convertLength (.str "meters") (.str "feet")
    (.num 2) 6.56168 rfl ?_
  rw [convertLength_eq]
  rw [if_neg (by norm_num)]
  rw [show lengthDispatch "meters" "feet" 2 = .ok (metersToFeet 2) from rfl]
  simp only [Except.ok.injEq]
  norm_num [metersToFeet]

/-- C10 counterexample: with a non-string category AND a non-number
decimalPlaces, `convertAndRoundUp` throws the string `TypeError` for the
category — not the number `TypeError` for decimalPlaces — because the
category string check runs first. -/
theorem C10_counterexample :
    convertAndRoundUp (.num 5) (.str "a") (.str "b") (.num 1) (.str "x") =
      .error (.typeError "Input must be a string") := by
  simp [convertAndRoundUp, validateInputTypeString]

/-- C10 (amended): once the category argument is a string,
`convertAndRoundUp` type-checks decimalPlaces as a finite number before
resolving the category and before performing any conversion: for every
non-number decimalPlaces it throws `TypeError("Input must be a number")`,
even if from/to/value are invalid and the category is unknown. -/
theorem C10_decimal_places_precedence (t : String) (cf ct v dp : JSValue)
    (hdp : dp.isNum = false) :
    convertAndRoundUp (.str t) cf ct v dp =
      .error (.typeError "Input must be a number") := by
  cases dp <;>
    simp_all [convertAndRoundUp, validateInputTypeString,
      validateInputTypeNumber, JSValue.isNum]

/-- Witness for C10 (amended): unknown category, invalid from/to/value, and a
string decimalPlaces — the decimalPlaces `TypeError` wins. -/
theorem C10_decimal_places_precedence_witness :
    convertAndRoundUp (.str "Bogus") .null (.num 7) JSValue.undef (.str "x") =
      .error (.typeError "Input must be a number") :=
  C10_decimal_places_precedence "Bogus" .null (.num 7) JSValue.undef (.str "x") rfl

theorem selector_convertFromCelsius_eq (x : ℚ) (hx : -273.15 ≤ x) :
    ConverterSelector.convertFromCelsius "fahrenheit" x =
      .ok (celsiusToFahrenheit x) := by
  simp [ConverterSelector.convertFromCelsius, validateCelsiusRange,
    not_lt.mpr hx, show toLowerCase "fahrenheit" = "fahrenheit" from rfl]

theorem selector_convertFromFahrenheit_eq (x : ℚ) (hx : -459.67 ≤ x) :
    ConverterSelector.convertFromFahrenheit "celsius" x =
      .ok (fahrenheitToCelsius x) := by
  simp [ConverterSelector.convertFromFahrenheit, validateFahrenheitRange,
    not_lt.mpr hx, show toLowerCase "celsius" = "celsius" from rfl]

/-- C4: the temperature conversion computes `x*9/5+32` (Celsius→Fahrenheit)
and `(x-32)*5/9` (Fahrenheit→Celsius) for every in-range temperature; in
particular 18°C is exactly 64.4°F, -25°C is exactly -13°F, 68°F is
exactly 20°C. -/
theorem C4_temperature_formulas :
    (∀ x : ℚ, -273.15 ≤ x →
      ConverterSelector.convertFromCelsius "fahrenheit" x =
        .ok (x * 9 / 5 + 32)) ∧
    (∀ x : ℚ, -459.67 ≤ x →
      ConverterSelector.convertFromFahrenheit "celsius" x =
        .ok ((x - 32) * 5 / 9)) ∧
    ConverterSelector.convertFromCelsius "fahrenheit" 18 = .ok 64.4 ∧
    ConverterSelector.convertFromCelsius "fahrenheit" (-25) = .ok (-13) ∧
    ConverterSelector.convertFromFahrenheit "celsius" 68 = .ok 20 := by
  have hc : ∀ x : ℚ, -273.15 ≤ x →
      ConverterSelector.convertFromCelsius "fahrenheit" x =
        .ok (x * 9 / 5 + 32) := by
    intro x hx
    rw [selector_convertFromCelsius_eq x hx, celsiusToFahrenheit]
  have hf : ∀ x : ℚ, -459.67 ≤ x →
      ConverterSelector.convertFromFahrenheit "celsius" x =
        .ok ((x - 32) * 5 / 9) := by
    intro x hx
    rw [selector_convertFromFahrenheit_eq x hx, fahrenheitToCelsius]
  refine ⟨hc, hf, ?_, ?_, ?_⟩
  · rw [hc 18 (by norm_num)]
    norm_num
  · rw [hc (-25) (by norm_num)]
    norm_num
  · rw [hf 68 (by norm_num)]
    norm_num

/-- Witness for C4: 0°C converts to exactly 32°F. -/
theorem C4_temperature_formulas_witness :
    ConverterSelector.convertFromCelsius "fahrenheit" 0 = .ok 32 := by
  rw [C4_temperature_formulas.1 0 (by norm_num)]
  norm_num

theorem convertLength_nonneg (f t : String) (x : ℚ) (hx : 0 ≤ x) :
    convertLength (.str f) (.str t) (.num x) = lengthDispatch f t x := by
  rw [convertLength_eq, if_neg (not_lt.mpr hx)]

theorem convertWeight_nonneg (f t : String) (x : ℚ) (hx : 0 ≤ x) :
    convertWeight (.str f) (.str t) (.num x) = weightDispatch f t x := by
  rw [convertWeight_eq, if_neg (not_lt.mpr hx)]

theorem convertVolume_nonneg (f t : String) (x : ℚ) (hx : 0 ≤ x) :
    convertVolume (.str f) (.str t) (.num x) = volumeDispatch f t x := by
  rw [convertVolume_eq, if_neg (not_lt.mpr hx)]

theorem lengthDispatch_m_ft (x : ℚ) :
    lengthDispatch "meters" "feet" x = .ok (metersToFeet x) := rfl

theorem lengthDispatch_ft_m (x : ℚ) :
    lengthDispatch "feet" "meters" x = .ok (feetToMeters x) := rfl

theorem lengthDispatch_cm_in (x : ℚ) :
    lengthDispatch "centimeters" "inches" x = .ok (centimetersToInches x) :=
  rfl

theorem lengthDispatch_in_cm (x : ℚ) :
    lengthDispatch "inches" "centimeters" x = .ok (inchesToCentimeters x) :=
  rfl

theorem weightDispatch_kg_lb (x : ℚ) :
    weightDispatch "kilograms" "pounds" x = .ok (kilogramsToPounds x) := rfl

theorem weightDispatch_lb_kg (x : ℚ) :
    weightDispatch "pounds" "kilograms" x = .ok (poundsToKilograms x) := rfl

theorem weightDispatch_g_oz (x : ℚ) :
    weightDispatch "grams" "ounces" x = .ok (gramsToOunces x) := rfl

theorem weightDispatch_oz_g (x : ℚ) :
    weightDispatch "ounces" "grams" x = .ok (ouncesToGrams x) := rfl

theorem volumeDispatch_l_gal (x : ℚ) :
    volumeDispatch "liters" "gallons" x = .ok (litersToGallons x) := rfl

theorem volumeDispatch_gal_l (x : ℚ) :
    volumeDispatch "gallons" "liters" x = .ok (gallonsToLiters x) := rfl

theorem volumeDispatch_l_pt (x : ℚ) :
    volumeDispatch "liters" "pints" x = .ok (litersToPints x) := rfl

theorem volumeDispatch_pt_l (x : ℚ) :
    volumeDispatch "pints" "liters" x = .ok (pintsToLiters x) := rfl

theorem volumeDispatch_dl_cup (x : ℚ) :
    volumeDispatch "deciliters" "cups" x = .ok (decilitersToCups x) := rfl

theorem volumeDispatch_cup_dl (x : ℚ) :
    volumeDispatch "cups" "deciliters" x = .ok (cupsToDeciliters x) := rfl

theorem temperatureDispatch_c_f (x : ℚ) (hx : -273.15 ≤ x) :
    temperatureDispatch "celsius" "fahrenheit" x =
      .ok (celsiusToFahrenheit x) := by
  simp [temperatureDispatch, validateCelsiusRange, not_lt.mpr hx,
    show toLowerCase "celsius" = "celsius" from rfl,
    show toLowerCase "fahrenheit" = "fahrenheit" from rfl]

theorem temperatureDispatch_f_c (x : ℚ) (hx : -459.67 ≤ x) :
    temperatureDispatch "fahrenheit" "celsius" x =
      .ok (fahrenheitToCelsius x) := by
  simp [temperatureDispatch, validateFahrenheitRange, not_lt.mpr hx,
    show toLowerCase "celsius" = "celsius" from rfl,
    show toLowerCase "fahrenheit" = "fahrenheit" from rfl]

/-- C5: every supported unit pair implemented in both directions round-trips
exactly over exact rational arithmetic — each reverse formula divides (or
multiplies) by the same constant the forward formula multiplies (or divides)
by — for every valid input of the category (non-negative for length, weight
and volume; within the absolute-zero range for temperature). -/
theorem C5_roundtrip :
    (∀ x : ℚ, 0 ≤ x →
      (convertLength (.str "meters") (.str "feet") (.num x) =
          .ok (metersToFeet x) ∧
        convertLength (.str "feet") (.str "meters")
          (.num (metersToFeet x)) = .ok x) ∧
      (convertLength (.str "feet") (.str "meters") (.num x) =
          .ok (feetToMeters x) ∧
        convertLength (.str "meters") (.str "feet")
          (.num (feetToMeters x)) = .ok x) ∧
      (convertLength (.str "centimeters") (.str "inches") (.num x) =
          .ok (centimetersToInches x) ∧
        convertLength (.str "inches") (.str "centimeters")
          (.num (centimetersToInches x)) = .ok x) ∧
      (convertLength (.str "inches") (.str "centimeters") (.num x) =
          .ok (inchesToCentimeters x) ∧
        convertLength (.str "centimeters") (.str "inches")
          (.num (inchesToCentimeters x)) = .ok x) ∧
      (convertWeight (.str "kilograms") (.str "pounds") (.num x) =
          .ok (kilogramsToPounds x) ∧
        convertWeight (.str "pounds") (.str "kilograms")
          (.num (kilogramsToPounds x)) = .ok x) ∧
      (convertWeight (.str "pounds") (.str "kilograms") (.num x) =
          .ok (poundsToKilograms x) ∧
        convertWeight (.str "kilograms") (.str "pounds")
          (.num (poundsToKilograms x)) = .ok x) ∧
      (convertWeight (.str "grams") (.str "ounces") (.num x) =
          .ok (gramsToOunces x) ∧
        convertWeight (.str "ounces") (.str "grams")
          (.num (gramsToOunces x)) = .ok x) ∧
      (convertWeight (.str "ounces") (.str "grams") (.num x) =
          .ok (ouncesToGrams x) ∧
        convertWeight (.str "grams") (.str "ounces")
          (.num (ouncesToGrams x)) = .ok x) ∧
      (convertVolume (.str "liters") (.str "gallons") (.num x) =
          .ok (litersToGallons x) ∧
        convertVolume (.str "gallons") (.str "liters")
          (.num (litersToGallons x)) = .ok x) ∧
      (convertVolume (.str "gallons") (.str "liters") (.num x) =
          .ok (gallonsToLiters x) ∧
        convertVolume (.str "liters") (.str "gallons")
          (.num (gallonsToLiters x)) = .ok x) ∧
      (convertVolume (.str "liters") (.str "pints") (.num x) =
          .ok (litersToPints x) ∧
        convertVolume (.str "pints") (.str "liters")
          (.num (litersToPints x)) = .ok x) ∧
      (convertVolume (.str "pints") (.str "liters") (.num x) =
          .ok (pintsToLiters x) ∧
        convertVolume (.str "liters") (.str "pints")
          (.num (pintsToLiters x)) = .ok x) ∧
      (convertVolume (.str "deciliters") (.str "cups") (.num x) =
          .ok (decilitersToCups x) ∧
        convertVolume (.str "cups") (.str "deciliters")
          (.num (decilitersToCups x)) = .ok x) ∧
      (convertVolume (.str "cups") (.str "deciliters") (.num x) =
          .ok (cupsToDeciliters x) ∧
        convertVolume (.str "deciliters") (.str "cups")
          (.num (cupsToDeciliters x)) = .ok x)) ∧
    (∀ x : ℚ, -273.15 ≤ x →
      convertTemperature (.str "celsius") (.str "fahrenheit") (.num x) =
        .ok (celsiusToFahrenheit x) ∧
      convertTemperature (.str "fahrenheit") (.str "celsius")
        (.num (celsiusToFahrenheit x)) = .ok x) ∧
    (∀ x : ℚ, -459.67 ≤ x →
      convertTemperature (.str "fahrenheit") (.str "celsius") (.num x) =
        .ok (fahrenheitToCelsius x) ∧
      convertTemperature (.str "celsius") (.str "fahrenheit")
        (.num (fahrenheitToCelsius x)) = .ok x) := by
  refine ⟨fun x hx => ?_, fun x hx => ?_, fun x hx => ?_⟩
  · have hmf : 0 ≤ metersToFeet x := mul_nonneg hx (by norm_num)
    have hfm : 0 ≤ feetToMeters x := div_nonneg hx (by norm_num)
    have hci : 0 ≤ centimetersToInches x := div_nonneg hx (by norm_num)
    have hic : 0 ≤ inchesToCentimeters x := mul_nonneg hx (by norm_num)
    have hkp : 0 ≤ kilogramsToPounds x := mul_nonneg hx (by norm_num)
    have hpk : 0 ≤ poundsToKilograms x := div_nonneg hx (by norm_num)
    have hgo : 0 ≤ gramsToOunces x := div_nonneg hx (by norm_num)
    have hog : 0 ≤ ouncesToGrams x := mul_nonneg hx (by norm_num)
    have hlg : 0 ≤ litersToGallons x := div_nonneg hx (by norm_num)
    have hgl : 0 ≤ gallonsToLiters x := mul_nonneg hx (by norm_num)
    have hlp : 0 ≤ litersToPints x := div_nonneg hx (by norm_num)
    have hpl : 0 ≤ pintsToLiters x := mul_nonneg hx (by norm_num)
    have hdc : 0 ≤ decilitersToCups x := div_nonneg hx (by norm_num)
    have hcd : 0 ≤ cupsToDeciliters x := mul_nonneg hx (by norm_num)
    refine ⟨⟨?_, ?_⟩, ⟨?_, ?_⟩, ⟨?_, ?_⟩, ⟨?_, ?_⟩, ⟨?_, ?_⟩, ⟨?_, ?_⟩,
      ⟨?_, ?_⟩, ⟨?_, ?_⟩, ⟨?_, ?_⟩, ⟨?_, ?_⟩, ⟨?_, ?_⟩, ⟨?_, ?_⟩,
      ⟨?_, ?_⟩, ⟨?_, ?_⟩⟩
    · rw [convertLength_nonneg _ _ _ hx, lengthDispatch_m_ft]
    · rw [convertLength_nonneg _ _ _ hmf, lengthDispatch_ft_m,
        Except.ok.injEq, feetToMeters, metersToFeet]
      exact mul_div_cancel_right₀ x (by norm_num)
    · rw [convertLength_nonneg _ _ _ hx, lengthDispatch_ft_m]
    · rw [convertLength_nonneg _ _ _ hfm, lengthDispatch_m_ft,
        Except.ok.injEq, metersToFeet, feetToMeters]
      exact div_mul_cancel₀ x (by norm_num)
    · rw [convertLength_nonneg _ _ _ hx, lengthDispatch_cm_in]
    · rw [convertLength_nonneg _ _ _ hci, lengthDispatch_in_cm,
        Except.ok.injEq, inchesToCentimeters, centimetersToInches]
      exact div_mul_cancel₀ x (by norm_num)
    · rw [convertLength_nonneg _ _ _ hx, lengthDispatch_in_cm]
    · rw [convertLength_nonneg _ _ _ hic, lengthDispatch_cm_in,
        Except.ok.injEq, centimetersToInches, inchesToCentimeters]
      exact mul_div_cancel_right₀ x (by norm_num)
    · rw [convertWeight_nonneg _ _ _ hx, weightDispatch_kg_lb]
    · rw [convertWeight_nonneg _ _ _ hkp, weightDispatch_lb_kg,
        Except.ok.injEq, poundsToKilograms, kilogramsToPounds]
      exact mul_div_cancel_right₀ x (by norm_num)
    · rw [convertWeight_nonneg _ _ _ hx, weightDispatch_lb_kg]
    · rw [convertWeight_nonneg _ _ _ hpk, weightDispatch_kg_lb,
        Except.ok.injEq, kilogramsToPounds, poundsToKilograms]
      exact div_mul_cancel₀ x (by norm_num)
    · rw [convertWeight_nonneg _ _ _ hx, weightDispatch_g_oz]
    · rw [convertWeight_nonneg _ _ _ hgo, weightDispatch_oz_g,
        Except.ok.injEq, ouncesToGrams, gramsToOunces]
      exact div_mul_cancel₀ x (by norm_num)
    · rw [convertWeight_nonneg _ _ _ hx, weightDispatch_oz_g]
    · rw [convertWeight_nonneg _ _ _ hog, weightDispatch_g_oz,
        Except.ok.injEq, gramsToOunces, ouncesToGrams]
      exact mul_div_cancel_right₀ x (by norm_num)
    · rw [convertVolume_nonneg _ _ _ hx, volumeDispatch_l_gal]
    · rw [convertVolume_nonneg _ _ _ hlg, volumeDispatch_gal_l,
        Except.ok.injEq, gallonsToLiters, litersToGallons]
      exact div_mul_cancel₀ x (by norm_num)
    · rw [convertVolume_nonneg _ _ _ hx, volumeDispatch_gal_l]
    · rw [convertVolume_nonneg _ _ _ hgl, volumeDispatch_l_gal,
        Except.ok.injEq, litersToGallons, gallonsToLiters]
      exact mul_div_cancel_right₀ x (by norm_num)
    · rw [convertVolume_nonneg _ _ _ hx, volumeDispatch_l_pt]
    · rw [convertVolume_nonneg _ _ _ hlp, volumeDispatch_pt_l,
        Except.ok.injEq, pintsToLiters, litersToPints]
      exact div_mul_cancel₀ x (by norm_num)
    · rw [convertVolume_nonneg _ _ _ hx, volumeDispatch_pt_l]
    · rw [convertVolume_nonneg _ _ _ hpl, volumeDispatch_l_pt,
        Except.ok.injEq, litersToPints, pintsToLiters]
      exact mul_div_cancel_right₀ x (by norm_num)
    · rw [convertVolume_nonneg _ _ _ hx, volumeDispatch_dl_cup]
    · rw [convertVolume_nonneg _ _ _ hdc, volumeDispatch_cup_dl,
        Except.ok.injEq, cupsToDeciliters, decilitersToCups]
      exact div_mul_cancel₀ x (by norm_num)
    · rw [convertVolume_nonneg _ _ _ hx, volumeDispatch_cup_dl]
    · rw [convertVolume_nonneg _ _ _ hcd, volumeDispatch_dl_cup,
        Except.ok.injEq, decilitersToCups, cupsToDeciliters]
      exact mul_div_cancel_right₀ x (by norm_num)
  · have hcf : -459.67 ≤ celsiusToFahrenheit x := by
      simp only [celsiusToFahrenheit]
      linarith
    refine ⟨?_, ?_⟩
    · rw [convertTemperature_eq, temperatureDispatch_c_f x hx]
    · rw [convertTemperature_eq, temperatureDispatch_f_c _ hcf,
        Except.ok.injEq, fahrenheitToCelsius, celsiusToFahrenheit]
      ring
  · have hfc : -273.15 ≤ fahrenheitToCelsius x := by
      simp only [fahrenheitToCelsius]
      linarith
    refine ⟨?_, ?_⟩
    · rw [convertTemperature_eq, temperatureDispatch_f_c x hx]
    · rw [convertTemperature_eq, temperatureDispatch_c_f _ hfc,
        Except.ok.injEq, celsiusToFahrenheit, fahrenheitToCelsius]
      ring

/-- Witness for C5: 2 meters convert to feet and back to exactly 2. -/
theorem C5_roundtrip_witness :
    convertLength (.str "meters") (.str "feet") (.num 2) =
      .ok (metersToFeet 2) ∧
    convertLength (.str "feet") (.str "meters") (.num (metersToFeet 2)) =
      .ok 2 :=
  (C5_roundtrip.1 2 (by norm_num)).1

theorem convertFromMeters_congr {u₁ u₂ : String}
    (h : toLowerCase u₁ = toLowerCase u₂) (x : ℚ) :
    convertFromMeters u₁ x = convertFromMeters u₂ x := by
  simp only [convertFromMeters, h]

theorem convertFromFeet_congr {u₁ u₂ : String}
    (h : toLowerCase u₁ = toLowerCase u₂) (x : ℚ) :
    convertFromFeet u₁ x = convertFromFeet u₂ x := by
  simp only [convertFromFeet, h]

theorem convertFromCentimeters_congr {u₁ u₂ : String}
    (h : toLowerCase u₁ = toLowerCase u₂) (x : ℚ) :
    convertFromCentimeters u₁ x = convertFromCentimeters u₂ x := by
  simp only [convertFromCentimeters, h]

theorem convertFromInches_congr {u₁ u₂ : String}
    (h : toLowerCase u₁ = toLowerCase u₂) (x : ℚ) :
    convertFromInches u₁ x = convertFromInches u₂ x := by
  simp only [convertFromInches, h]

theorem convertFromKilograms_congr {u₁ u₂ : String}
    (h : toLowerCase u₁ = toLowerCase u₂) (x : ℚ) :
    convertFromKilograms u₁ x = convertFromKilograms u₂ x := by
  simp only [convertFromKilograms, h]

theorem convertFromPounds_congr {u₁ u₂ : String}
    (h : toLowerCase u₁ = toLowerCase u₂) (x : ℚ) :
    convertFromPounds u₁ x = convertFromPounds u₂ x := by
  simp only [convertFromPounds, h]

theorem convertFromGrams_congr {u₁ u₂ : String}
    (h : toLowerCase u₁ = toLowerCase u₂) (x : ℚ) :
    convertFromGrams u₁ x = convertFromGrams u₂ x := by
  simp only [convertFromGrams, h]

theorem convertFromOunces_congr {u₁ u₂ : String}
    (h : toLowerCase u₁ = toLowerCase u₂) (x : ℚ) :
    convertFromOunces u₁ x = convertFromOunces u₂ x := by
  simp only [convertFromOunces, h]

theorem lengthDispatch_congr {f₁ f₂ u₁ u₂ : String}
    (hf : toLowerCase f₁ = toLowerCase f₂)
    (hu : toLowerCase u₁ = toLowerCase u₂) (x : ℚ) :
    lengthDispatch f₁ u₁ x = lengthDispatch f₂ u₂ x := by
  simp only [lengthDispatch, hf, convertFromMeters_congr hu,
    convertFromFeet_congr hu, convertFromCentimeters_congr hu,
    convertFromInches_congr hu]

theorem weightDispatch_congr {f₁ f₂ u₁ u₂ : String}
    (hf : toLowerCase f₁ = toLowerCase f₂)
    (hu : toLowerCase u₁ = toLowerCase u₂) (x : ℚ) :
    weightDispatch f₁ u₁ x = weightDispatch f₂ u₂ x := by
  simp only [weightDispatch, hf, convertFromKilograms_congr hu,
    convertFromPounds_congr hu, convertFromGrams_congr hu,
    convertFromOunces_congr hu]

theorem temperatureDispatch_congr {f₁ f₂ u₁ u₂ : String}
    (hf : toLowerCase f₁ = toLowerCase f₂)
    (hu : toLowerCase u₁ = toLowerCase u₂) (x : ℚ) :
    temperatureDispatch f₁ u₁ x = temperatureDispatch f₂ u₂ x := by
  simp only [temperatureDispatch, hf, hu]

theorem volumeDispatch_congr {f₁ f₂ u₁ u₂ : String}
    (hf : toLowerCase f₁ = toLowerCase f₂)
    (hu : toLowerCase u₁ = toLowerCase u₂) (x : ℚ) :
    volumeDispatch f₁ u₁ x = volumeDispatch f₂ u₂ x := by
  simp only [volumeDispatch, hf, hu]

theorem convertTemperature_congr {f₁ f₂ u₁ u₂ : String}
    (hf : toLowerCase f₁ = toLowerCase f₂)
    (hu : toLowerCase u₁ = toLowerCase u₂) (v : JSValue) :
    convertTemperature (.str f₁) (.str u₁) v =
      convertTemperature (.str f₂) (.str u₂) v := by
  cases v
  case num x =>
    rw [convertTemperature_eq, convertTemperature_eq]
    exact temperatureDispatch_congr hf hu x
  all_goals
    simp only [convertTemperature, validateInputs, validateInputTypeString,
      validateInputTypeNumber, ok_bind, err_bind]

theorem convertLength_congr {f₁ f₂ u₁ u₂ : String}
    (hf : toLowerCase f₁ = toLowerCase f₂)
    (hu : toLowerCase u₁ = toLowerCase u₂) (v : JSValue) :
    convertLength (.str f₁) (.str u₁) v =
      convertLength (.str f₂) (.str u₂) v := by
  cases v
  case num x =>
    rw [convertLength_eq, convertLength_eq]
    by_cases hx : x < 0
    · rw [if_pos hx, if_pos hx]
    · rw [if_neg hx, if_neg hx]
      exact lengthDispatch_congr hf hu x
  all_goals
    simp only [convertLength, validateInputs, validateInputTypeString,
      validateInputTypeNumber, ok_bind, err_bind]

theorem convertSpeed_congr {f₁ f₂ u₁ u₂ : String}
    (_hf : toLowerCase f₁ = toLowerCase f₂)
    (_hu : toLowerCase u₁ = toLowerCase u₂) (v : JSValue) :
    convertSpeed (.str f₁) (.str u₁) v =
      convertSpeed (.str f₂) (.str u₂) v := by
  cases v
  case num x =>
    rw [convertSpeed_eq, convertSpeed_eq]
    rfl
  all_goals
    simp only [convertSpeed, validateInputs, validateInputTypeString,
      validateInputTypeNumber, ok_bind, err_bind]

theorem convertWeight_congr {f₁ f₂ u₁ u₂ : String}
    (hf : toLowerCase f₁ = toLowerCase f₂)
    (hu : toLowerCase u₁ = toLowerCase u₂) (v : JSValue) :
    convertWeight (.str f₁) (.str u₁) v =
      convertWeight (.str f₂) (.str u₂) v := by
  cases v
  case num x =>
    rw [convertWeight_eq, convertWeight_eq]
    by_cases hx : x < 0
    · rw [if_pos hx, if_pos hx]
    · rw [if_neg hx, if_neg hx]
      exact weightDispatch_congr hf hu x
  all_goals
    simp only [convertWeight, validateInputs, validateInputTypeString,
      validateInputTypeNumber, ok_bind, err_bind]

theorem convertVolume_congr {f₁ f₂ u₁ u₂ : String}
    (hf : toLowerCase f₁ = toLowerCase f₂)
    (hu : toLowerCase u₁ = toLowerCase u₂) (v : JSValue) :
    convertVolume (.str f₁) (.str u₁) v =
      convertVolume (.str f₂) (.str u₂) v := by
  cases v
  case num x =>
    rw [convertVolume_eq, convertVolume_eq]
    by_cases hx : x < 0
    · rw [if_pos hx, if_pos hx]
    · rw [if_neg hx, if_neg hx]
      exact volumeDispatch_congr hf hu x
  all_goals
    simp only [convertVolume, validateInputs, validateInputTypeString,
      validateInputTypeNumber, ok_bind, err_bind]

/-- C6: all string parameters are matched case-insensitively — replacing the
category or either unit string by any string with the same lower-casing
yields the identical result for every value — and each full unit word and its
abbreviation alias resolve to the same formula. -/
theorem C6_case_insensitive_aliases :
    (∀ f₁ f₂ u₁ u₂ : String, toLowerCase f₁ = toLowerCase f₂ →
      toLowerCase u₁ = toLowerCase u₂ → ∀ v : JSValue,
      convertTemperature (.str f₁) (.str u₁) v =
        convertTemperature (.str f₂) (.str u₂) v ∧
      convertLength (.str f₁) (.str u₁) v =
        convertLength (.str f₂) (.str u₂) v ∧
      convertSpeed (.str f₁) (.str u₁) v =
        convertSpeed (.str f₂) (.str u₂) v ∧
      convertWeight (.str f₁) (.str u₁) v =
        convertWeight (.str f₂) (.str u₂) v ∧
      convertVolume (.str f₁) (.str u₁) v =
        convertVolume (.str f₂) (.str u₂) v) ∧
    (∀ t₁ t₂ : String, toLowerCase t₁ = toLowerCase t₂ →
      chooseConversionMethod t₁ = chooseConversionMethod t₂) ∧
    (∀ (u : String) (x : ℚ),
      lengthDispatch "meters" u x = lengthDispatch "m" u x ∧
      lengthDispatch "feet" u x = lengthDispatch "ft" u x ∧
      lengthDispatch "centimeters" u x = lengthDispatch "cm" u x ∧
      lengthDispatch "inches" u x = lengthDispatch "in" u x ∧
      weightDispatch "kilograms" u x = weightDispatch "kg" u x ∧
      weightDispatch "pounds" u x = weightDispatch "lb" u x ∧
      weightDispatch "grams" u x = weightDispatch "g" u x ∧
      weightDispatch "ounces" u x = weightDispatch "oz" u x) ∧
    (∀ x : ℚ,
      convertFromMeters "feet" x = convertFromMeters "ft" x ∧
      convertFromFeet "meters" x = convertFromFeet "m" x ∧
      convertFromCentimeters "inches" x = convertFromCentimeters "in" x ∧
      convertFromInches "centimeters" x = convertFromInches "cm" x ∧
      convertFromKilograms "pounds" x = convertFromKilograms "lb" x ∧
      convertFromPounds "kilograms" x = convertFromPounds "kg" x ∧
      convertFromGrams "ounces" x = convertFromGrams "oz" x ∧
      convertFromOunces "grams" x = convertFromOunces "g" x) := by
  refine ⟨?_, ?_, ?_, ?_⟩
  · intro f₁ f₂ u₁ u₂ hf hu v
    exact ⟨convertTemperature_congr hf hu v, convertLength_congr hf hu v,
      convertSpeed_congr hf hu v, convertWeight_congr hf hu v,
      convertVolume_congr hf hu v⟩
  · intro t₁ t₂ ht
    simp only [chooseConversionMethod, ht]
  · intro u x
    exact ⟨rfl, rfl, rfl, rfl, rfl, rfl, rfl, rfl⟩
  · intro x
    exact ⟨rfl, rfl, rfl, rfl, rfl, rfl, rfl, rfl⟩

/-- Witness for C6: `"KILOGRAMS"`/`"Pounds"` behave exactly like
`"kilograms"`/`"pounds"` on the value 12. -/
theorem C6_case_insensitive_aliases_witness :
    convertWeight (.str "KILOGRAMS") (.str "Pounds") (.num 12) =
      convertWeight (.str "kilograms") (.str "pounds") (.num 12) :=
  (C6_case_insensitive_aliases.1 "KILOGRAMS" "kilograms" "Pounds" "pounds"
    (by decide) (by decide) (.num 12)).2.2.2.1

theorem jsToFixedVal_eq_specDecimalRound (x : ℚ) (f : ℕ) :
    jsToFixedVal x f = specDecimalRound x f := by
  have hp : (0 : ℚ) < 10 ^ f := by positivity
  simp only [jsToFixedVal, specDecimalRound, roundTiesUp]
  by_cases hx : x < 0
  · rw [if_pos hx, if_pos (mul_neg_of_neg_of_pos hx hp)]
    rw [show -x * 10 ^ f = -(x * 10 ^ f) from by ring]
    push_cast
    ring
  · rw [if_neg hx, if_neg (not_lt.mpr (mul_nonneg (not_lt.mp hx) hp.le))]

theorem jsTrunc_natCast (d : ℕ) : jsTrunc (d : ℚ) = (d : ℤ) := by
  unfold jsTrunc
  rw [if_neg (not_lt.mpr (by positivity))]
  exact Int.floor_natCast d

theorem jsToFixedParsed_nat (x : ℚ) (d : ℕ) (hd : d ≤ 100) :
    jsToFixedParsed x (d : ℚ) = .ok (specDecimalRound x d) := by
  have hrange : ¬((d : ℤ) < 0 ∨ 100 < (d : ℤ)) := by
    push_neg
    exact ⟨Int.natCast_nonneg d, by exact_mod_cast hd⟩
  simp only [jsToFixedParsed, jsTrunc_natCast, if_neg hrange,
    Int.toNat_natCast, jsToFixedVal_eq_specDecimalRound]

/-- C7: for a resolved successful conversion and a whole number of decimal
places `d ≤ 100`, `convertAndRoundUp` returns the converted value rounded to
`d` decimal places by standard half-away-from-zero decimal rounding
(`specDecimalRound`, stated from the spec's words and proved equal to the
code's `parseFloat(x.toFixed(d))` mechanism), and the result is a number. -/
theorem C7_round_half_away (t : String)
    (m : JSValue → JSValue → JSValue → Except JsError ℚ) (cf ct v : JSValue)
    (y : ℚ) (d : ℕ) (hd : d ≤ 100)
    (hm : conversionMethods (toLowerCase t) = some m)
    (hy : m cf ct v = .ok y) :
    convertAndRoundUp (.str t) cf ct v (.num (d : ℚ)) =
      .ok (specDecimalRound y d) := by
  simp only [convertAndRoundUp, validateInputTypeString,
    validateInputTypeNumber, ok_bind, chooseConversionMethod_some hm,
    callConversionMethod, hy, Except.map, jsToFixedParsed_nat y d hd]

/-- Witness for C7: 18°C converted to Fahrenheit (64.4) and rounded to 0
decimal places gives exactly 64 (64.9 floors to 64 after adding half). -/
theorem C7_round_half_away_witness :
    convertAndRoundUp (.str "temperature") (.str "celsius")
      (.str "fahrenheit") (.num 18) (.num 0) = .ok 64 := by
  have hy : convertTemperature (.str "celsius") (.str "fahrenheit")
      (.num 18) = .ok 64.4 := by
    rw [convertTemperature_eq, temperatureDispatch_c_f 18 (by norm_num),
      Except.ok.injEq, celsiusToFahrenheit]
    norm_num
  have h := C7_round_half_away "temperature" convertTemperature
    (.str "celsius") (.str "fahrenheit") (.num 18) 64.4 0 (by norm_num) rfl hy
  rw [show ((0 : ℕ) : ℚ) = (0 : ℚ) from by norm_num] at h
  rw [h, Except.ok.injEq, specDecimalRound]
  rw [if_neg (by norm_num)]
  rw [show ⌊(64.4 : ℚ) * 10 ^ (0 : ℕ) + 1 / 2⌋ = (64 : ℤ) from by
    rw [Int.floor_eq_iff]
    norm_num]
  norm_num

end L2
